import Mathlib

set_option maxRecDepth 8000

/-! Shallow embedding of `src/packet_quiz.py` and `src/tcp_flags_quiz.py`.
Python strings are modelled as `List Char`; Python ints as `Int`/`Nat`.
Random shuffling is modelled by quantifying over an arbitrary permutation
of the shuffled list, and the interactive `input()` calls by an explicit
list of user inputs consumed in order. -/

/-- ANSI bright-green escape, the `HIGHLIGHT_COLOR` constant of
`PacketQuiz.format_hex_dump`. -/
def HIGHLIGHT_COLOR : List Char := "\x1b[1;32m".toList

/-- ANSI reset escape, the `RESET_COLOR` constant of
`PacketQuiz.format_hex_dump`. -/
def RESET_COLOR : List Char := "\x1b[0m".toList

/-- Python `str.lower()` (ASCII case folding, which covers every string the
quizzes compare). -/
def lowerStr (l : List Char) : List Char := l.map Char.toLower

/-- Python `str.strip()`: remove whitespace from both ends. -/
def pyStrip (l : List Char) : List Char :=
  ((l.dropWhile Char.isWhitespace).reverse.dropWhile Char.isWhitespace).reverse

/-- The normalisation `x.lower().strip()` applied by both `check_answer`
implementations to each of their two arguments. -/
def normalizeStr (l : List Char) : List Char := pyStrip (lowerStr l)

/-- Python `s.startswith(p)`. -/
def startswith (p l : List Char) : Bool := decide (l.take p.length = p)

/-- Value of one hexadecimal digit character, as accepted by Python
`int(s, 16)`. -/
def hexDigitVal (c : Char) : Option Nat :=
  if '0' ≤ c ∧ c ≤ '9' then some (c.toNat - '0'.toNat)
  else if 'a' ≤ c ∧ c ≤ 'f' then some (c.toNat - 'a'.toNat + 10)
  else if 'A' ≤ c ∧ c ≤ 'F' then some (c.toNat - 'A'.toNat + 10)
  else none

/-- Digit run of Python `int(s, 16)` after the `0x` prefix: hexadecimal
digits with single underscores allowed between digits (and one directly
after the prefix), no trailing or doubled underscore, at least one digit. -/
def hexDigitsVal : Nat → List Char → Option Nat
  | acc, [] => some acc
  | acc, '_' :: c :: cs => (hexDigitVal c).bind fun d => hexDigitsVal (16 * acc + d) cs
  | _, ['_'] => none
  | acc, c :: cs => (hexDigitVal c).bind fun d => hexDigitsVal (16 * acc + d) cs

/-- Python `int(s, 16)` restricted to the call sites in `check_answer`,
where both arguments are already lowercased, stripped, and known to start
with `0x`; returns `none` exactly when Python raises `ValueError`. -/
def int16 (l : List Char) : Option Nat :=
  match l with
  | '0' :: 'x' :: rest => if rest.isEmpty then none else hexDigitsVal 0 rest
  | _ => none

/-- The true/false shortcut expansion inside both `check_answer`
implementations: `'t'` becomes `'true'`, `'f'` becomes `'false'`,
anything else is left unchanged. -/
def expand_tf (u : List Char) : List Char :=
  if u = ['t'] then "true".toList else if u = ['f'] then "false".toList else u

/-- `PacketQuiz.check_answer` (packet_quiz.py lines 724-763): normalise both
strings, then try direct match, the true/false class, and the hex class in
order; return `False` if no class matches. -/
def PacketQuiz.check_answer (user_answer correct_answer : List Char) : Bool :=
  let ua := pyStrip (lowerStr user_answer)
  let ca := pyStrip (lowerStr correct_answer)
  if ua = ca then true
  else if (ca = "true".toList ∨ ca = "false".toList) ∧
      (ua = "true".toList ∨ ua = "false".toList ∨ ua = ['t'] ∨ ua = ['f']) then
    decide (expand_tf ua = ca)
  else if startswith ("0x".toList) ca ∧ startswith ("0x".toList) ua then
    match int16 ca, int16 ua with
    | some a, some b => decide (a = b)
    | _, _ => false
  else false

/-- The `flag_patterns` table of `TCPFlagsQuiz.check_answer`
(tcp_flags_quiz.py lines 528-539). -/
def TCPFlagsQuiz.flag_patterns : List (List Char × List (List Char)) :=
  [ ("fin".toList, ["fin".toList, "0x01".toList, "tcp-fin".toList]),
    ("syn".toList, ["syn".toList, "0x02".toList, "tcp-syn".toList]),
    ("rst".toList, ["rst".toList, "0x04".toList, "tcp-rst".toList]),
    ("psh".toList, ["psh".toList, "0x08".toList, "tcp-psh".toList]),
    ("ack".toList, ["ack".toList, "0x10".toList, "tcp-ack".toList]),
    ("urg".toList, ["urg".toList, "0x20".toList, "tcp-urg".toList]),
    ("fin+ack".toList,
      ["fin+ack".toList, "ack+fin".toList, "0x11".toList, "tcp-fin|tcp-ack".toList]),
    ("syn+ack".toList,
      ["syn+ack".toList, "ack+syn".toList, "0x12".toList, "tcp-syn|tcp-ack".toList]),
    ("rst+ack".toList,
      ["rst+ack".toList, "ack+rst".toList, "0x14".toList, "tcp-rst|tcp-ack".toList]),
    ("psh+ack".toList,
      ["psh+ack".toList, "ack+psh".toList, "0x18".toList, "tcp-psh|tcp-ack".toList]) ]

/-- `TCPFlagsQuiz.check_answer` (tcp_flags_quiz.py lines 487-545): the same
chain as `PacketQuiz.check_answer` followed by the flag-combination table
scan; return `False` if no class matches. -/
def TCPFlagsQuiz.check_answer (user_answer correct_answer : List Char) : Bool :=
  let ua := pyStrip (lowerStr user_answer)
  let ca := pyStrip (lowerStr correct_answer)
  if ua = ca then true
  else if (ca = "true".toList ∨ ca = "false".toList) ∧
      (ua = "true".toList ∨ ua = "false".toList ∨ ua = ['t'] ∨ ua = ['f']) then
    decide (expand_tf ua = ca)
  else if startswith ("0x".toList) ca ∧ startswith ("0x".toList) ua then
    match int16 ca, int16 ua with
    | some a, some b => decide (a = b)
    | _, _ => false
  else
    TCPFlagsQuiz.flag_patterns.any fun kp =>
      decide (ca ∈ kp.2) && decide (ua ∈ kp.2)

/-- Letter-to-option resolution performed by both `run_quiz` loops
(packet_quiz.py lines 669-676, tcp_flags_quiz.py lines 458-465): if the
uppercased input is exactly one of `A`..`D`, look the index up in the
options (the Python `user_option` variable stays the empty string when the
index is out of range); otherwise pass the input through unchanged.
The Python guard `0 <= index` is always true inside the letter branch. -/
def resolve_option (options : List (List Char)) (user_answer : List Char) : List Char :=
  match user_answer.map Char.toUpper with
  | [c] =>
    if c = 'A' ∨ c = 'B' ∨ c = 'C' ∨ c = 'D' then
      if c.toNat - 'A'.toNat < options.length then options.getD (c.toNat - 'A'.toNat) []
      else []
    else user_answer
  | _ => user_answer


/-- A quiz question as both scripts define it, keeping the fields that the
selection, resolution and scoring logic reads (`id`, `options`, `answer`).
The presentation-only fields (`text`, `explanation`, and for the packet
quiz `packet_index` and `hex_location`) never influence selection,
matching or scoring and are omitted. -/
structure Question where
  id : Nat
  options : List (List Char)
  answer : List Char
deriving DecidableEq

/-- The 50 packet-quiz questions (packet_quiz.py lines 76-527), restricted
to the fields the verified logic reads. -/
def PacketQuiz.questions : List Question :=
[
  ⟨1, ["00:1a:2b:3c:4d:5e".toList, "ff:ff:ff:ff:ff:ff".toList, "00:1c:2d:3e:4f:60".toList, "c0:a8:01:02".toList], "ff:ff:ff:ff:ff:ff".toList⟩,
  ⟨2, ["0x0800".toList, "0x0806".toList, "0x8035".toList, "0x86DD".toList], "0x0806".toList⟩,
  ⟨3, ["192.168.1.1".toList, "192.168.1.2".toList, "8.8.8.8".toList, "93.184.216.34".toList], "192.168.1.1".toList⟩,
  ⟨4, ["True".toList, "False".toList], "False".toList⟩,
  ⟨5, ["0x0001 (Request)".toList, "0x0002 (Reply)".toList, "0x0003 (RARP Request)".toList, "0x0004 (RARP Reply)".toList], "0x0001 (Request)".toList⟩,
  ⟨6, ["192.168.1.1".toList, "192.168.1.2".toList, "8.8.8.8".toList, "93.184.216.34".toList], "8.8.8.8".toList⟩,
  ⟨7, ["1".toList, "6".toList, "17".toList, "47".toList], "1".toList⟩,
  ⟨8, ["0".toList, "3".toList, "5".toList, "8".toList], "8".toList⟩,
  ⟨9, ["True".toList, "False".toList], "False".toList⟩,
  ⟨10, ["80".toList, "443".toList, "53".toList, "45678".toList], "80".toList⟩,
  ⟨11, ["SYN".toList, "ACK".toList, "FIN".toList, "RST".toList], "SYN".toList⟩,
  ⟨12, ["192.168.1.1".toList, "192.168.1.2".toList, "8.8.8.8".toList, "93.184.216.34".toList], "192.168.1.2".toList⟩,
  ⟨13, ["192.168.1.1".toList, "192.168.1.2".toList, "8.8.8.8".toList, "93.184.216.34".toList], "93.184.216.34".toList⟩,
  ⟨14, ["80".toList, "443".toList, "53".toList, "45678".toList], "45678".toList⟩,
  ⟨15, ["True".toList, "False".toList], "True".toList⟩,
  ⟨16, ["4096".toList, "5840".toList, "8192".toList, "32768".toList], "8192".toList⟩,
  ⟨17, ["5".toList, "8".toList, "10".toList, "12".toList], "8".toList⟩,
  ⟨18, ["IPv4".toList, "IPv6".toList, "IPv5".toList, "IPv4 with extensions".toList], "IPv4".toList⟩,
  ⟨19, ["1024".toList, "1460".toList, "1500".toList, "9000".toList], "1024".toList⟩,
  ⟨20, ["True".toList, "False".toList], "False".toList⟩,
  ⟨21, ["53".toList, "80".toList, "443".toList, "67".toList], "53".toList⟩,
  ⟨22, ["1".toList, "6".toList, "17".toList, "47".toList], "17".toList⟩,
  ⟨23, ["example.com".toList, "google.com".toList, "dns.com".toList, "local.net".toList], "example.com".toList⟩,
  ⟨24, ["A".toList, "AAAA".toList, "MX".toList, "TXT".toList], "TXT".toList⟩,
  ⟨25, ["53".toList, "49573".toList, "80".toList, "443".toList], "49573".toList⟩,
  ⟨26, ["0x0001 (Ethernet)".toList, "0x0006 (IEEE 802)".toList, "0x0007 (ARCNET)".toList, "0x000F (Frame Relay)".toList], "0x0001 (Ethernet)".toList⟩,
  ⟨27, ["0x0800 (IPv4)".toList, "0x0806 (ARP)".toList, "0x86DD (IPv6)".toList, "0x8035 (RARP)".toList], "0x0800 (IPv4)".toList⟩,
  ⟨28, ["True".toList, "False".toList], "True".toList⟩,
  ⟨29, ["4".toList, "6".toList, "8".toList, "10".toList], "6".toList⟩,
  ⟨30, ["2".toList, "4".toList, "6".toList, "8".toList], "4".toList⟩,
  ⟨31, ["0x0102".toList, "0x0000".toList, "0x4001".toList, "0xf77c".toList], "0x0102".toList⟩,
  ⟨32, ["0".toList, "1".toList, "3".toList, "8".toList], "0".toList⟩,
  ⟨33, ["60".toList, "64".toList, "84".toList, "100".toList], "60".toList⟩,
  ⟨34, ["True".toList, "False".toList], "True".toList⟩,
  ⟨35, ["4096".toList, "2048".toList, "1024".toList, "8192".toList], "4096".toList⟩,
  ⟨36, ["20 bytes".toList, "24 bytes".toList, "28 bytes".toList, "32 bytes".toList], "20 bytes".toList⟩,
  ⟨37, ["0".toList, "1".toList, "1000".toList, "65535".toList], "0".toList⟩,
  ⟨38, ["True".toList, "False".toList], "False".toList⟩,
  ⟨39, ["0".toList, "1".toList, "16".toList, "32".toList], "0".toList⟩,
  ⟨40, ["40".toList, "48".toList, "60".toList, "72".toList], "72".toList⟩,
  ⟨41, ["1".toList, "3".toList, "7".toList, "8".toList], "8".toList⟩,
  ⟨42, ["0x012c3d4e".toList, "0x00000000".toList, "0x01030308".toList, "0x02040405".toList], "0x012c3d4e".toList⟩,
  ⟨43, ["True".toList, "False".toList], "True".toList⟩,
  ⟨44, ["60".toList, "72".toList, "84".toList, "92".toList], "92".toList⟩,
  ⟨45, ["0x4e000000".toList, "0x012c3d4e".toList, "0x01030308".toList, "0x02040405".toList], "0x4e000000".toList⟩,
  ⟨46, ["8".toList, "16".toList, "28".toList, "40".toList], "40".toList⟩,
  ⟨47, ["0x0123".toList, "0xa123".toList, "0xbb23".toList, "0xb123".toList], "0x0123".toList⟩,
  ⟨48, ["True".toList, "False".toList], "False".toList⟩,
  ⟨49, ["0".toList, "1".toList, "2".toList, "4".toList], "1".toList⟩,
  ⟨50, ["IN (Internet)".toList, "CH (Chaos)".toList, "HS (Hesiod)".toList, "ANY".toList], "IN (Internet)".toList⟩ ]
/-- The 50 TCP-flags questions (tcp_flags_quiz.py lines 70-421), restricted
to the fields the verified logic reads. -/
def TCPFlagsQuiz.questions : List Question :=
[
  ⟨1, ["SYN".toList, "FIN".toList, "RST".toList, "ACK".toList], "FIN".toList⟩,
  ⟨2, ["True".toList, "False".toList], "False".toList⟩,
  ⟨3, ["Connection termination".toList, "TCP SYN (start)".toList, "Data transfer".toList, "Connection reset".toList], "TCP SYN (start)".toList⟩,
  ⟨4, ["0x01".toList, "0x02".toList, "0x04".toList, "0x10".toList], "0x02".toList⟩,
  ⟨5, ["SYN + ACK".toList, "FIN + ACK".toList, "RST + ACK".toList, "PSH + ACK".toList], "RST + ACK".toList⟩,
  ⟨6, ["PSH".toList, "ACK".toList, "RST".toList, "SYN".toList], "RST".toList⟩,
  ⟨7, ["SYN packets".toList, "RST packets".toList, "FIN packets".toList, "No-flag packets".toList], "FIN packets".toList⟩,
  ⟨8, ["SYN-only packets".toList, "ACK-only packets".toList, "SYN+ACK packets".toList, "RST packets".toList], "SYN-only packets".toList⟩,
  ⟨9, ["SYN packets".toList, "ACK-only (data transfer)".toList, "FIN packets".toList, "RST packets".toList], "ACK-only (data transfer)".toList⟩,
  ⟨10, ["0x02".toList, "0x12".toList, "0x10".toList, "0x04".toList], "0x12".toList⟩,
  ⟨11, ["True".toList, "False".toList], "True".toList⟩,
  ⟨12, ["Any SYN packet".toList, "Any RST packet".toList, "Any PSH packet".toList, "Any ACK packet".toList], "Any PSH packet".toList⟩,
  ⟨13, ["True".toList, "False".toList], "True".toList⟩,
  ⟨14, ["SYN+ACK".toList, "FIN+ACK".toList, "RST+ACK".toList, "PSH+ACK".toList], "FIN+ACK".toList⟩,
  ⟨15, ["0x01".toList, "0x02".toList, "0x04".toList, "0x10".toList], "0x10".toList⟩,
  ⟨16, ["SYN only".toList, "PSH+ACK".toList, "FIN+SYN".toList, "RST only".toList], "PSH+ACK".toList⟩,
  ⟨17, ["True".toList, "False".toList], "True".toList⟩,
  ⟨18, ["tcp[13] & 0x03 != 0".toList, "tcp[13] & 0x12 != 0".toList, "tcp[13] & 0x06 != 0".toList, "tcp[13] & 0x11 != 0".toList], "tcp[13] & 0x03 != 0".toList⟩,
  ⟨19, ["tcp[13] & 0x10 = 0".toList, "tcp[13] & 0x10 != 0".toList, "tcp[13] = 0x10".toList, "tcp[13] != 0x10".toList], "tcp[13] & 0x10 = 0".toList⟩,
  ⟨20, ["Only URG".toList, "URG and any other flag".toList, "Only RST".toList, "RST and any other flag".toList], "URG and any other flag".toList⟩,
  ⟨21, ["FIN+ACK".toList, "SYN+ACK".toList, "RST+ACK".toList, "PSH+ACK".toList], "SYN+ACK".toList⟩,
  ⟨22, ["True".toList, "False".toList], "True".toList⟩,
  ⟨23, ["SYN".toList, "ACK".toList, "URG".toList, "PSH".toList], "URG".toList⟩,
  ⟨24, ["All TCP packets".toList, "Packets with no common flags".toList, "Only ECE and CWR flags".toList, "Invalid packets".toList], "Packets with no common flags".toList⟩,
  ⟨25, ["tcp[13] = 0x02".toList, "tcp[13] = 0x12".toList, "tcp[13] = 0x10".toList, "tcp[13] = 0x04".toList], "tcp[13] = 0x10".toList⟩,
  ⟨26, ["SYN-only packets".toList, "RST-only packets".toList, "ACK-only packets".toList, "FIN-only packets".toList], "RST-only packets".toList⟩,
  ⟨27, ["tcp[13] = 0x08".toList, "tcp[13] = 0x18".toList, "tcp[13] & 0x18 = 0x08".toList, "tcp[13] & 0x08 = 0x08".toList], "tcp[13] = 0x08".toList⟩,
  ⟨28, ["SYN+ACK packets".toList, "SYN-only packets".toList, "ACK-only packets".toList, "RST packets".toList], "SYN-only packets".toList⟩,
  ⟨29, ["SYN+ACK+FIN".toList, "PSH+ACK+FIN".toList, "RST+ACK+FIN".toList, "URG+ACK+FIN".toList], "PSH+ACK+FIN".toList⟩,
  ⟨30, ["True".toList, "False".toList], "True".toList⟩,
  ⟨31, ["Only ACK packets".toList, "Any packet with ACK set".toList, "Only SYN packets".toList, "Any packet with SYN set".toList], "Any packet with ACK set".toList⟩,
  ⟨32, ["tcp[13] & 0x05 != 0".toList, "tcp[13] & 0x06 != 0".toList, "tcp[13] & 0x03 != 0".toList, "tcp[13] & 0x14 != 0".toList], "tcp[13] & 0x05 != 0".toList⟩,
  ⟨33, ["All TCP packets".toList, "No TCP packets".toList, "Packets with no flags set".toList, "Invalid packets".toList], "Packets with no flags set".toList⟩,
  ⟨34, ["SYN+ACK+RST".toList, "PSH+ACK+RST".toList, "FIN+ACK+RST".toList, "URG+ACK+RST".toList], "PSH+ACK+RST".toList⟩,
  ⟨35, ["ACK+SYN".toList, "ACK+RST".toList, "ACK+URG".toList, "ACK+PSH".toList], "ACK+URG".toList⟩,
  ⟨36, ["tcp[13] = 0x02".toList, "tcp[13] = 0x12".toList, "tcp[13] = 0x10".toList, "tcp[13] = 0x04".toList], "tcp[13] = 0x12".toList⟩,
  ⟨37, ["True".toList, "False".toList], "False".toList⟩,
  ⟨38, ["FIN+PSH+URG".toList, "FIN+ACK+URG".toList, "SYN+ACK+URG".toList, "RST+ACK+URG".toList], "FIN+ACK+URG".toList⟩,
  ⟨39, ["tcp[13] & 0x12 = 0x10".toList, "tcp[13] & 0x12 = 0x02".toList, "tcp[13] = 0x10".toList, "tcp[13] = 0x12".toList], "tcp[13] & 0x12 = 0x10".toList⟩,
  ⟨40, ["All TCP packets".toList, "Packets with no FIN, SYN, RST, or ACK".toList, "Only PSH packets".toList, "Invalid packets".toList], "Packets with no FIN, SYN, RST, or ACK".toList⟩,
  ⟨41, ["SYN".toList, "ACK".toList, "RST".toList, "PSH".toList], "PSH".toList⟩,
  ⟨42, ["All TCP packets".toList, "Packets with at least one flag set".toList, "Only ECE and CWR flags".toList, "Invalid packets".toList], "Packets with at least one flag set".toList⟩,
  ⟨43, ["True".toList, "False".toList], "True".toList⟩,
  ⟨44, ["tcp[13] = 0x01".toList, "tcp[13] = 0x11".toList, "tcp[13] & 0x11 = 0x01".toList, "tcp[13] & 0x01 = 0x01".toList], "tcp[13] = 0x01".toList⟩,
  ⟨45, ["FIN+SYN+RST".toList, "FIN+SYN+PSH".toList, "FIN+RST+PSH".toList, "SYN+RST+PSH".toList], "FIN+SYN+RST".toList⟩,
  ⟨46, ["tcp[13] & 0x28 != 0".toList, "tcp[13] & 0x18 != 0".toList, "tcp[13] & 0x30 != 0".toList, "tcp[13] & 0x0C != 0".toList], "tcp[13] & 0x28 != 0".toList⟩,
  ⟨47, ["SYN-only packets".toList, "RST-only packets".toList, "ACK-only packets".toList, "FIN-only packets".toList], "RST-only packets".toList⟩,
  ⟨48, ["True".toList, "False".toList], "True".toList⟩,
  ⟨49, ["SYN+ACK".toList, "FIN+ACK".toList, "RST+ACK".toList, "PSH+ACK".toList], "RST+ACK".toList⟩,
  ⟨50, ["SYN-only packets".toList, "ACK-only packets".toList, "SYN+ACK packets".toList, "RST packets".toList], "SYN+ACK packets".toList⟩ ]
/-- Python slice `l[:k]`: for nonnegative `k` the first `k` elements, for
negative `k` all but the last `-k` elements (clamped at zero). -/
def pySliceTo {α : Type} (l : List α) (k : Int) : List α :=
  if 0 ≤ k then l.take k.toNat else l.take ((l.length : Int) + k).toNat

/-- The scan over `self.questions` in `PacketQuiz.run_quiz` (lines 624-631):
find the question with the pinned id (`start_question`; the last match wins
because each match overwrites the variable) and collect every non-matching
question, in order (`remaining_questions`). -/
def scan_start (sid : Int) : List Question → Option Question × List Question
  | [] => (none, [])
  | q :: qs =>
    let r := scan_start sid qs
    if (q.id : Int) = sid then (if r.1.isSome then r.1 else some q, r.2)
    else (r.1, q :: r.2)

/-- Question selection of `PacketQuiz.run_quiz` (lines 621-647).  The two
`random.shuffle` results are supplied as `shuffled_rem` (a permutation of
the non-matching questions, used when the pinned id resolves) and
`shuffled_full` (a permutation of the whole bank, used otherwise).  The
returned Bool records whether the non-fatal `Question ID not found` notice
was printed.  `TCPFlagsQuiz.run_quiz` (lines 441-443) is the `sid = none`
case. -/
def run_selection (qs : List Question) (sid : Option Int) (n : Int)
    (shuffled_rem shuffled_full : List Question) : List Question × Bool :=
  match sid with
  | none => (pySliceTo shuffled_full n, false)
  | some s =>
    match scan_start s qs with
    | (some st, _) => (st :: pySliceTo shuffled_rem (n - 1), false)
    | (none, _) => (pySliceTo shuffled_full n, true)

/-- Question selection of `TCPFlagsQuiz.run_quiz` (lines 441-443): shuffle
the bank and take the first `n`. -/
def TCPFlagsQuiz.select_questions (shuffled_full : List Question) (n : Int) : List Question :=
  pySliceTo shuffled_full n

/-- One iteration of the packet-quiz answer loop: strip the raw input,
resolve a letter choice against the options, check against the canonical
answer (packet_quiz.py lines 665-679). -/
def PacketQuiz.question_correct (q : Question) (raw_input : List Char) : Bool :=
  PacketQuiz.check_answer (resolve_option q.options (pyStrip raw_input)) q.answer

/-- One iteration of the TCP-flags answer loop (tcp_flags_quiz.py lines
454-468). -/
def TCPFlagsQuiz.question_correct (q : Question) (raw_input : List Char) : Bool :=
  TCPFlagsQuiz.check_answer (resolve_option q.options (pyStrip raw_input)) q.answer

/-- Final score accumulated by a quiz loop: one point per question whose
input is judged correct; the loop consumes one input per question, in
order. -/
def quiz_score (correct1 : Question → List Char → Bool)
    (quiz_questions : List Question) (inputs : List (List Char)) : Nat :=
  (quiz_questions.zip inputs).countP fun qi => correct1 qi.1 qi.2

/-- The end-of-session report printed by both `run_quiz` methods
(packet_quiz.py line 721, tcp_flags_quiz.py line 484): the score, the
denominator actually printed (`self.num_questions`), and the percentage
`score / num_questions * 100` (kept as an exact rational; Python prints
its float to one decimal, and raises `ZeroDivisionError` when
`num_questions = 0`). -/
structure Report where
  score : Nat
  total : Int
  pct : Rat
deriving DecidableEq

/-- Build the report exactly as the final print formats it. -/
def final_report (score : Nat) (num_questions : Int) : Report :=
  ⟨score, num_questions, (score : Rat) / (num_questions : Rat) * 100⟩

/-- `PacketQuiz.run_quiz` end to end (packet_quiz.py lines 602-722):
select questions, score the supplied inputs, and report.  The report
divides by the requested `num_questions`, not by the number of selected
questions. -/
def PacketQuiz.run_quiz (qs : List Question) (sid : Option Int) (num_questions : Int)
    (shuffled_rem shuffled_full : List Question) (inputs : List (List Char)) : Report :=
  final_report
    (quiz_score PacketQuiz.question_correct
      (run_selection qs sid num_questions shuffled_rem shuffled_full).1 inputs)
    num_questions

/-- `TCPFlagsQuiz.run_quiz` end to end (tcp_flags_quiz.py lines 423-485). -/
def TCPFlagsQuiz.run_quiz (num_questions : Int)
    (shuffled_full : List Question) (inputs : List (List Char)) : Report :=
  final_report
    (quiz_score TCPFlagsQuiz.question_correct
      (TCPFlagsQuiz.select_questions shuffled_full num_questions) inputs)
    num_questions

/-- Highlight decision of `PacketQuiz.format_hex_dump` (lines 586-592): a
byte at absolute position `p` is highlighted when both parameters are
present and `offset <= p < offset + num_bytes`. -/
def hlB (offset num_bytes : Option Int) (p : Nat) : Bool :=
  match offset, num_bytes with
  | some o, some n => decide (o ≤ (p : Int) ∧ (p : Int) < o + n)
  | _, _ => false

/-- Rendering of one byte group, wrapped in the ANSI colour pair exactly
when highlighted. -/
def fmt_byte (offset num_bytes : Option Int) (p : Nat) (b : List Char) : List Char :=
  if hlB offset num_bytes p then HIGHLIGHT_COLOR ++ b ++ RESET_COLOR else b

/-- The `formatted_bytes` list built for one chunk (lines 580-592):
`chunk[j:j+2]` for `j = 0, 2, ...`, rendered at byte position
`(i + j) // 2`, where `i` is the chunk's starting character index. -/
def line_bytes (offset num_bytes : Option Int) : Nat → List Char → List (List Char)
  | _, [] => []
  | i, [c] => [fmt_byte offset num_bytes (i / 2) [c]]
  | i, c1 :: c2 :: cs =>
    fmt_byte offset num_bytes (i / 2) [c1, c2] :: line_bytes offset num_bytes (i + 2) cs

/-- Hex digits of `n`, most significant first (empty for `n = 0`);
`Nat.digitChar` yields the lowercase digits Python uses. -/
def toHex (n : Nat) : List Char :=
  if h : n = 0 then [] else toHex (n / 16) ++ [Nat.digitChar (n % 16)]
termination_by n
decreasing_by exact Nat.div_lt_self (Nat.pos_of_ne_zero h) (by decide)

/-- The `04x` offset label of line 577: lowercase hex, zero-padded to at
least four digits. -/
def hexPad4 (n : Nat) : List Char :=
  let s := if n = 0 then ['0'] else toHex n
  List.replicate (4 - s.length) '0' ++ s

/-- The rendered lines of `format_hex_dump` (lines 572-598): one line per
32-character chunk of the hex string, each `label ++ two spaces ++ byte
groups joined by single spaces`; `i` is the absolute character index of the
chunk start. -/
def fhd_lines (offset num_bytes : Option Int) : Nat → List Char → List (List Char)
  | _, [] => []
  | i, c :: cs =>
    (hexPad4 (i / 2) ++ [' ', ' '] ++
        List.intercalate [' '] (line_bytes offset num_bytes i ((c :: cs).take 32)))
      :: fhd_lines offset num_bytes (i + 32) ((c :: cs).drop 32)
termination_by i l => l.length
decreasing_by simp; omega

/-- `PacketQuiz.format_hex_dump` (lines 552-600): the lines joined with
newlines. -/
def format_hex_dump (hex_string : List Char) (offset num_bytes : Option Int) : List Char :=
  List.intercalate ['\n'] (fhd_lines offset num_bytes 0 hex_string)

/-- The rendered byte groups of all lines, in order: exactly the
`formatted_bytes` elements that `fhd_lines` joins with spaces, without the
labels or spacing. -/
def fhd_groups (offset num_bytes : Option Int) : Nat → List Char → List (List Char)
  | _, [] => []
  | i, c :: cs =>
    line_bytes offset num_bytes i ((c :: cs).take 32) ++
      fhd_groups offset num_bytes (i + 32) ((c :: cs).drop 32)
termination_by i l => l.length
decreasing_by simp; omega

/-- A rendered byte group is marked iff it begins with the ANSI highlight
escape. -/
def marked (g : List Char) : Bool := startswith HIGHLIGHT_COLOR g

/-- Remove the highlight wrapper from a rendered byte group, if present. -/
def strip_mark (g : List Char) : List Char :=
  if marked g then
    (g.drop HIGHLIGHT_COLOR.length).take
      ((g.drop HIGHLIGHT_COLOR.length).length - RESET_COLOR.length)
  else g

/-- A `List.any` over the flag table is false when the canonical side
belongs to none of the table's representation sets. -/
theorem aux_flag_any_false (u c : List Char)
    (h : ∀ kp ∈ TCPFlagsQuiz.flag_patterns, ¬ (c ∈ kp.2)) :
    (TCPFlagsQuiz.flag_patterns.any fun kp =>
      decide (c ∈ kp.2) && decide (u ∈ kp.2)) = false := by
  rw [List.any_eq_false]
  intro kp hkp
  simp [h kp hkp]

/-- A `List.any` over the flag table is false when the user side belongs to
none of the table's representation sets. -/
theorem aux_flag_any_false_user (u c : List Char)
    (h : ∀ kp ∈ TCPFlagsQuiz.flag_patterns, ¬ (u ∈ kp.2)) :
    (TCPFlagsQuiz.flag_patterns.any fun kp =>
      decide (c ∈ kp.2) && decide (u ∈ kp.2)) = false := by
  rw [List.any_eq_false]
  intro kp hkp
  simp [h kp hkp]

/-- C9: the boolean class applies exactly when the normalised canonical
answer is `true` or `false`; the shortcuts `t`/`f` are expanded before the
comparison, and both inputs are trimmed and lowercased first.  When the
canonical answer is boolean, both matchers return exactly the comparison of
the expanded, normalised user input with the normalised canonical answer
(so `t` matches `True` and `f` does not); when it is not boolean, `t`/`f`
receive no special treatment and only the direct-match class can succeed. -/
theorem C9_boolean_class (ua ca : List Char) :
    ((normalizeStr ca = "true".toList ∨ normalizeStr ca = "false".toList) →
      PacketQuiz.check_answer ua ca
          = decide (expand_tf (normalizeStr ua) = normalizeStr ca) ∧
      TCPFlagsQuiz.check_answer ua ca
          = decide (expand_tf (normalizeStr ua) = normalizeStr ca)) ∧
    ((¬ (normalizeStr ca = "true".toList ∨ normalizeStr ca = "false".toList)) →
      (normalizeStr ua = ['t'] ∨ normalizeStr ua = ['f']) →
      PacketQuiz.check_answer ua ca = decide (normalizeStr ua = normalizeStr ca) ∧
      TCPFlagsQuiz.check_answer ua ca = decide (normalizeStr ua = normalizeStr ca)) := by
  constructor
  · intro h
    simp only [normalizeStr] at h
    constructor
    · unfold PacketQuiz.check_answer
      dsimp only
      split_ifs with h1 h2 h3
      · rcases h with h | h <;> simp only [normalizeStr, h1, h] <;> decide
      · rfl
      · rcases h with h | h <;> rw [h] at h3 <;> exact absurd h3.1 (by decide)
      · push_neg at h2
        have h4 := h2 h
        push_neg at h4
        have hu : expand_tf (normalizeStr ua) = normalizeStr ua := by
          simp only [expand_tf, normalizeStr]
          rw [if_neg h4.2.2.1, if_neg h4.2.2.2]
        rw [hu]
        simp [normalizeStr, h1]
    · unfold TCPFlagsQuiz.check_answer
      dsimp only
      split_ifs with h1 h2 h3
      · rcases h with h | h <;> simp only [normalizeStr, h1, h] <;> decide
      · rfl
      · rcases h with h | h <;> rw [h] at h3 <;> exact absurd h3.1 (by decide)
      · push_neg at h2
        have h4 := h2 h
        push_neg at h4
        have hu : expand_tf (normalizeStr ua) = normalizeStr ua := by
          simp only [expand_tf, normalizeStr]
          rw [if_neg h4.2.2.1, if_neg h4.2.2.2]
        rw [hu, aux_flag_any_false]
        · simp [normalizeStr, h1]
        · rcases h with h | h <;> rw [h] <;> decide
  · intro h hu
    simp only [normalizeStr] at h hu
    push_neg at h
    constructor
    · unfold PacketQuiz.check_answer
      dsimp only
      split_ifs with h1 h2 h3
      · simp [normalizeStr, h1]
      · exact absurd h2.1 (by push_neg; exact h)
      · rcases hu with hu | hu <;> rw [hu] at h3 <;> exact absurd h3.2 (by decide)
      · simp [normalizeStr, h1]
    · unfold TCPFlagsQuiz.check_answer
      dsimp only
      split_ifs with h1 h2 h3
      · simp [normalizeStr, h1]
      · exact absurd h2.1 (by push_neg; exact h)
      · rcases hu with hu | hu <;> rw [hu] at h3 <;> exact absurd h3.2 (by decide)
      · rw [aux_flag_any_false_user]
        · simp [normalizeStr, h1]
        · rcases hu with hu | hu <;> rw [hu] <;> decide

/-- Witness for C9 at the claim's concrete inputs: the canonical answer
`True` normalises to a boolean, `t` matches it and `f` does not, in both
quizzes. -/
theorem C9_boolean_class_witness :
    (normalizeStr ("True".toList) = "true".toList ∨
      normalizeStr ("True".toList) = "false".toList) ∧
    PacketQuiz.check_answer ("t".toList) ("True".toList) = true ∧
    PacketQuiz.check_answer ("f".toList) ("True".toList) = false ∧
    TCPFlagsQuiz.check_answer ("t".toList) ("True".toList) = true ∧
    TCPFlagsQuiz.check_answer ("f".toList) ("True".toList) = false := by
  refine ⟨by decide, ?_, ?_, ?_, ?_⟩
  · rw [((C9_boolean_class ("t".toList) ("True".toList)).1 (by decide)).1]; decide
  · rw [((C9_boolean_class ("f".toList) ("True".toList)).1 (by decide)).1]; decide
  · rw [((C9_boolean_class ("t".toList) ("True".toList)).1 (by decide)).2]; decide
  · rw [((C9_boolean_class ("f".toList) ("True".toList)).1 (by decide)).2]; decide

/-- C7 (amended): when both normalised inputs begin with `0x`, the matcher
returns true iff the normalised strings are identical or both parse as
base-16 integers with equal values; malformed hex fails the hex class
instead of raising, and both matchers are total functions. -/
theorem C7_hex_class (ua ca : List Char)
    (hua : startswith ("0x".toList) (normalizeStr ua) = true)
    (hca : startswith ("0x".toList) (normalizeStr ca) = true) :
    (PacketQuiz.check_answer ua ca = true ↔
      (normalizeStr ua = normalizeStr ca ∨
        ∃ v, int16 (normalizeStr ca) = some v ∧ int16 (normalizeStr ua) = some v)) ∧
    (TCPFlagsQuiz.check_answer ua ca = true ↔
      (normalizeStr ua = normalizeStr ca ∨
        ∃ v, int16 (normalizeStr ca) = some v ∧ int16 (normalizeStr ua) = some v)) := by
  simp only [normalizeStr] at hua hca ⊢
  have hct : pyStrip (lowerStr ca) ≠ "true".toList := by
    intro hh; rw [hh] at hca; exact absurd hca (by decide)
  have hcf : pyStrip (lowerStr ca) ≠ "false".toList := by
    intro hh; rw [hh] at hca; exact absurd hca (by decide)
  constructor
  · unfold PacketQuiz.check_answer
    dsimp only
    split_ifs with h1 h2 h3
    · simp [h1]
    · exact absurd h2.1 (by push_neg; exact ⟨hct, hcf⟩)
    · rcases hc : int16 (pyStrip (lowerStr ca)) with _ | a <;>
        rcases hu : int16 (pyStrip (lowerStr ua)) with _ | b <;>
        simp [hc, hu, h1, eq_comm]
    · exact absurd ⟨hca, hua⟩ h3
  · unfold TCPFlagsQuiz.check_answer
    dsimp only
    split_ifs with h1 h2 h3
    · simp [h1]
    · exact absurd h2.1 (by push_neg; exact ⟨hct, hcf⟩)
    · rcases hc : int16 (pyStrip (lowerStr ca)) with _ | a <;>
        rcases hu : int16 (pyStrip (lowerStr ua)) with _ | b <;>
        simp [hc, hu, h1, eq_comm]
    · exact absurd ⟨hca, hua⟩ h3

/-- Witness for C7 at the claim's concrete inputs: `0x02` matches `0x2`
by hex value, and `0xZZ` (malformed) fails against `0x02` without
raising, in both quizzes. -/
theorem C7_hex_class_witness :
    (startswith ("0x".toList) (normalizeStr ("0x02".toList)) = true ∧
      startswith ("0x".toList) (normalizeStr ("0x2".toList)) = true ∧
      startswith ("0x".toList) (normalizeStr ("0xZZ".toList)) = true) ∧
    PacketQuiz.check_answer ("0x02".toList) ("0x2".toList) = true ∧
    PacketQuiz.check_answer ("0xZZ".toList) ("0x02".toList) = false ∧
    TCPFlagsQuiz.check_answer ("0x02".toList) ("0x2".toList) = true ∧
    TCPFlagsQuiz.check_answer ("0xZZ".toList) ("0x02".toList) = false := by
  refine ⟨by decide, ?_, ?_, ?_, ?_⟩
  · exact (C7_hex_class ("0x02".toList) ("0x2".toList) (by decide) (by decide)).1.mpr
      (Or.inr ⟨2, by decide, by decide⟩)
  · have h := (C7_hex_class ("0xZZ".toList) ("0x02".toList) (by decide) (by decide)).1
    rcases hb : PacketQuiz.check_answer ("0xZZ".toList) ("0x02".toList) with _ | _
    · rfl
    · exact absurd (h.mp hb) (by decide)
  · exact (C7_hex_class ("0x02".toList) ("0x2".toList) (by decide) (by decide)).2.mpr
      (Or.inr ⟨2, by decide, by decide⟩)
  · have h := (C7_hex_class ("0xZZ".toList) ("0x02".toList) (by decide) (by decide)).2
    rcases hb : TCPFlagsQuiz.check_answer ("0xZZ".toList) ("0x02".toList) with _ | _
    · rfl
    · exact absurd (h.mp hb) (by decide)

/-- Counterexample for C7 as stated: with both normalised inputs beginning
with `0x`, `matches` can return true although neither side parses as a
base-16 integer: `0xzz` against `0xZZ` succeeds through the direct
string-equality class, so "true iff both parse with equal values" fails. -/
theorem C7_hex_class_cex :
    PacketQuiz.check_answer ("0xzz".toList) ("0xZZ".toList) = true ∧
    TCPFlagsQuiz.check_answer ("0xzz".toList) ("0xZZ".toList) = true ∧
    startswith ("0x".toList) (normalizeStr ("0xzz".toList)) = true ∧
    startswith ("0x".toList) (normalizeStr ("0xZZ".toList)) = true ∧
    int16 (normalizeStr ("0xzz".toList)) = none ∧
    int16 (normalizeStr ("0xZZ".toList)) = none := by decide

/-- C8: two inputs that fall in the same entry of the fixed flag table
match, regardless of representation (bare name, hex value, tcp- filter
name) and of the order in which a combination's names were typed. -/
theorem C8_flag_table (kp : List Char × List (List Char))
    (hkp : kp ∈ TCPFlagsQuiz.flag_patterns) :
    ∀ u ∈ kp.2, ∀ c ∈ kp.2, TCPFlagsQuiz.check_answer u c = true := by
  revert kp
  decide

/-- Witness for C8 at the claim's concrete inputs: `ack+syn` matches
`syn+ack`, and the hex value `0x04` matches the flag name `RST` (the
matcher lowercases `RST` to the table's `rst`; table entries are already
normalised). -/
theorem C8_flag_table_witness :
    TCPFlagsQuiz.check_answer ("ack+syn".toList) ("syn+ack".toList) = true ∧
    TCPFlagsQuiz.check_answer ("0x04".toList) ("rst".toList) = true ∧
    TCPFlagsQuiz.check_answer ("0x04".toList) ("RST".toList) = true := by
  refine ⟨?_, ?_, ?_⟩
  · exact C8_flag_table ("syn+ack".toList,
      ["syn+ack".toList, "ack+syn".toList, "0x12".toList, "tcp-syn|tcp-ack".toList])
      (by decide) ("ack+syn".toList) (by decide) ("syn+ack".toList) (by decide)
  · exact C8_flag_table ("rst".toList,
      ["rst".toList, "0x04".toList, "tcp-rst".toList]) (by decide)
      ("0x04".toList) (by decide) ("rst".toList) (by decide)
  · have h := C8_flag_table ("rst".toList,
      ["rst".toList, "0x04".toList, "tcp-rst".toList]) (by decide)
      ("0x04".toList) (by decide) ("rst".toList) (by decide)
    revert h
    decide

/-- C2 (amended): a single-letter input whose uppercased form is `A`..`D`
resolves to the option at that position when the position is inside the
option list, and to the empty string (not the unchanged letter) when it is
beyond the list; letters outside `A`..`D` are passed through unchanged; and
the empty string then fails to match any non-empty canonical answer in
either quiz. -/
theorem C2_letter_resolution (options : List (List Char)) (c : Char) :
    ((c.toUpper = 'A' ∨ c.toUpper = 'B' ∨ c.toUpper = 'C' ∨ c.toUpper = 'D') →
      (c.toUpper.toNat - 'A'.toNat < options.length →
        resolve_option options [c] = options.getD (c.toUpper.toNat - 'A'.toNat) []) ∧
      (¬ c.toUpper.toNat - 'A'.toNat < options.length →
        resolve_option options [c] = [])) ∧
    ((¬ (c.toUpper = 'A' ∨ c.toUpper = 'B' ∨ c.toUpper = 'C' ∨ c.toUpper = 'D')) →
      resolve_option options [c] = [c]) ∧
    (∀ ca : List Char, normalizeStr ca ≠ [] →
      PacketQuiz.check_answer [] ca = false ∧ TCPFlagsQuiz.check_answer [] ca = false) := by
  refine ⟨fun h => ⟨fun hlt => ?_, fun hge => ?_⟩, fun h => ?_, fun ca hca => ?_⟩
  · simp only [resolve_option, List.map]
    rw [if_pos h, if_pos hlt]
  · simp only [resolve_option, List.map]
    rw [if_pos h, if_neg hge]
  · simp only [resolve_option, List.map]
    rw [if_neg h]
  · simp only [normalizeStr] at hca
    have he : pyStrip (lowerStr ([] : List Char)) = [] := rfl
    constructor
    · unfold PacketQuiz.check_answer
      dsimp only
      rw [he]
      split_ifs with h1 h2 h3
      · exact absurd h1.symm hca
      · exact absurd h2.2 (by decide)
      · exact absurd h3.2 (by decide)
      · rfl
    · unfold TCPFlagsQuiz.check_answer
      dsimp only
      rw [he]
      split_ifs with h1 h2 h3
      · exact absurd h1.symm hca
      · exact absurd h2.2 (by decide)
      · exact absurd h3.2 (by decide)
      · exact aux_flag_any_false_user _ _ (by decide)

/-- Counterexample for C2 as stated: question id 4 of the packet quiz has
the two options `True`/`False`; the in-range letter alphabet is `A`..`D`,
so the letter `C` falls outside this question's option list, yet the code
passes the empty string to the matcher, not the unchanged letter. -/
theorem C2_letter_resolution_cex :
    (PacketQuiz.questions.getD 3 ⟨0, [], []⟩).id = 4 ∧
    (PacketQuiz.questions.getD 3 ⟨0, [], []⟩).options = ["True".toList, "False".toList] ∧
    resolve_option ["True".toList, "False".toList] ['C'] = [] ∧
    ([] : List Char) ≠ ['C'] ∧ ([] : List Char) ≠ ['c'] := by decide

/-- Witness for C2: letter `b` resolves to the second option of question
id 2, letter `E` passes through unchanged, and the empty string fails to
match a non-empty canonical answer. -/
theorem C2_letter_resolution_witness :
    resolve_option ["0x0800".toList, "0x0806".toList, "0x8035".toList, "0x86DD".toList] ['b']
      = "0x0806".toList ∧
    resolve_option ["True".toList, "False".toList] ['E'] = ['E'] ∧
    PacketQuiz.check_answer [] ("0x0806".toList) = false ∧
    TCPFlagsQuiz.check_answer [] ("0x0806".toList) = false := by
  refine ⟨?_, ?_, ?_, ?_⟩
  · have h := ((C2_letter_resolution
      ["0x0800".toList, "0x0806".toList, "0x8035".toList, "0x86DD".toList] 'b').1
      (by decide)).1 (by decide)
    rw [h]
    decide
  · exact (C2_letter_resolution ["True".toList, "False".toList] 'E').2.1 (by decide)
  · exact ((C2_letter_resolution [] 'E').2.2 ("0x0806".toList) (by decide)).1
  · exact ((C2_letter_resolution [] 'E').2.2 ("0x0806".toList) (by decide)).2

/-- The remaining-questions list produced by the pinned-id scan is a
sublist of the bank. -/
theorem aux_scan_start_sublist (sid : Int) (qs : List Question) :
    (scan_start sid qs).2.Sublist qs := by
  induction qs with
  | nil => simp [scan_start]
  | cons q qs ih =>
    rw [scan_start]
    by_cases h : (q.id : Int) = sid
    · rw [if_pos h]
      exact ih.cons q
    · rw [if_neg h]
      exact ih.cons₂ q

/-- Every question in the remaining list has an id different from the
pinned id. -/
theorem aux_scan_start_ne (sid : Int) (qs : List Question) :
    ∀ q ∈ (scan_start sid qs).2, (q.id : Int) ≠ sid := by
  induction qs with
  | nil => simp [scan_start]
  | cons q qs ih =>
    rw [scan_start]
    by_cases h : (q.id : Int) = sid
    · rw [if_pos h]
      exact ih
    · rw [if_neg h]
      intro p hp
      rcases List.mem_cons.mp hp with hp | hp
      · rw [hp]; exact h
      · exact ih p hp

/-- A found pinned question has the pinned id and belongs to the bank. -/
theorem aux_scan_start_found (sid : Int) (qs : List Question) (st : Question)
    (h : (scan_start sid qs).1 = some st) : (st.id : Int) = sid ∧ st ∈ qs := by
  induction qs with
  | nil => simp [scan_start] at h
  | cons q qs ih =>
    rw [scan_start] at h
    by_cases hq : (q.id : Int) = sid
    · rw [if_pos hq] at h
      rcases ho : (scan_start sid qs).1 with _ | p
      · rw [ho] at h
        simp at h
        rw [← h]
        exact ⟨hq, List.mem_cons_self q qs⟩
      · rw [ho] at h
        simp at h
        have := ih (ho.trans (congrArg some h))
        exact ⟨this.1, List.mem_cons_of_mem q this.2⟩
    · rw [if_neg hq] at h
      have := ih h
      exact ⟨this.1, List.mem_cons_of_mem q this.2⟩

/-- When no question carries the pinned id, the scan returns `none` and the
bank unchanged. -/
theorem aux_scan_start_none (sid : Int) (qs : List Question)
    (h : ∀ q ∈ qs, (q.id : Int) ≠ sid) : scan_start sid qs = (none, qs) := by
  induction qs with
  | nil => simp [scan_start]
  | cons q qs ih =>
    rw [scan_start]
    rw [if_neg (h q (List.mem_cons_self q qs))]
    rw [ih fun p hp => h p (List.mem_cons_of_mem q hp)]

/-- With duplicate-free ids, a successful scan removes exactly one
question. -/
theorem aux_scan_start_len (sid : Int) (qs : List Question) (st : Question)
    (hnd : (qs.map Question.id).Nodup) (h : (scan_start sid qs).1 = some st) :
    (scan_start sid qs).2.length + 1 = qs.length := by
  induction qs with
  | nil => simp [scan_start] at h
  | cons q qs ih =>
    rw [List.map_cons, List.nodup_cons] at hnd
    rw [scan_start]
    by_cases hq : (q.id : Int) = sid
    · rw [if_pos hq]
      have hnone : scan_start sid qs = (none, qs) := by
        apply aux_scan_start_none
        intro p hp hps
        exact hnd.1 (by
          have hpq : p.id = q.id := by omega
          rw [← hpq]
          exact List.mem_map_of_mem Question.id hp)
      rw [hnone]
      simp
    · rw [if_neg hq]
      rw [scan_start] at h
      rw [if_neg hq] at h
      have := ih hnd.2 h
      simp only [List.length_cons]
      omega

/-- C3: on the unpinned path (no pinned id in `PacketQuiz.run_quiz`, and
always in `TCPFlagsQuiz.run_quiz`), a requested count `n >= 1` over a bank
with duplicate-free ids selects exactly `min n bank_size` questions, with
pairwise-distinct ids, each drawn from the bank; in particular an `n`
larger than the bank yields the whole bank instead of failing. -/
theorem C3_unpinned_selection (qs shuffled : List Question) (n : Int)
    (hperm : List.Perm shuffled qs) (hnd : (qs.map Question.id).Nodup)
    (hn : 1 ≤ n) : ∀ rem : List Question,
    run_selection qs none n rem shuffled = (pySliceTo shuffled n, false) ∧
    TCPFlagsQuiz.select_questions shuffled n = pySliceTo shuffled n ∧
    (pySliceTo shuffled n).length = min n.toNat qs.length ∧
    ((pySliceTo shuffled n).map Question.id).Nodup ∧
    ∀ q ∈ pySliceTo shuffled n, q ∈ qs := by
  intro rem
  have hslice : pySliceTo shuffled n = shuffled.take n.toNat := by
    rw [pySliceTo, if_pos (by omega)]
  refine ⟨rfl, rfl, ?_, ?_, ?_⟩
  · rw [hslice, List.length_take, hperm.length_eq]
  · rw [hslice, List.map_take]
    exact ((hperm.map Question.id).nodup_iff.mpr hnd).sublist (List.take_sublist _ _)
  · intro q hq
    rw [hslice] at hq
    exact hperm.subset (List.take_subset _ _ hq)

/-- Witness for C3 on the two real banks: requesting 10 yields 10 distinct
ids, requesting 60 yields all 50. -/
theorem C3_unpinned_selection_witness :
    (List.Perm PacketQuiz.questions PacketQuiz.questions ∧
      (PacketQuiz.questions.map Question.id).Nodup ∧
      (TCPFlagsQuiz.questions.map Question.id).Nodup ∧
      PacketQuiz.questions.length = 50 ∧ TCPFlagsQuiz.questions.length = 50) ∧
    (pySliceTo PacketQuiz.questions 10).length = 10 ∧
    ((pySliceTo PacketQuiz.questions 10).map Question.id).Nodup ∧
    (pySliceTo PacketQuiz.questions 60).length = 50 ∧
    (pySliceTo TCPFlagsQuiz.questions 60).length = 50 := by
  refine ⟨⟨List.Perm.refl _, by decide, by decide, by decide, by decide⟩, ?_, ?_, ?_, ?_⟩
  · have h := (C3_unpinned_selection PacketQuiz.questions PacketQuiz.questions 10
      (List.Perm.refl _) (by decide) (by decide)) []
    rw [h.2.2.1]
    decide
  · exact ((C3_unpinned_selection PacketQuiz.questions PacketQuiz.questions 10
      (List.Perm.refl _) (by decide) (by decide)) []).2.2.2.1
  · have h := (C3_unpinned_selection PacketQuiz.questions PacketQuiz.questions 60
      (List.Perm.refl _) (by decide) (by decide)) []
    rw [h.2.2.1]
    decide
  · have h := (C3_unpinned_selection TCPFlagsQuiz.questions TCPFlagsQuiz.questions 60
      (List.Perm.refl _) (by decide) (by decide)) []
    rw [h.2.2.1]
    decide

/-- C4: with a pinned id that resolves, the selected list starts with the
pinned question (which carries exactly that id and belongs to the bank) and
contains no duplicate ids; with a pinned id that does not resolve, the
selection is exactly the unpinned random path and the non-fatal
`Question ID not found` notice is emitted. -/
theorem C4_pinned_selection (qs : List Question) (sid n : Int)
    (st : Question) (rem rem' full' : List Question)
    (hnd : (qs.map Question.id).Nodup) (hn : 1 ≤ n) :
    (scan_start sid qs = (some st, rem) → List.Perm rem' rem →
      run_selection qs (some sid) n rem' full'
          = (st :: pySliceTo rem' (n - 1), false) ∧
      (st :: pySliceTo rem' (n - 1)).head? = some st ∧
      (st.id : Int) = sid ∧ st ∈ qs ∧
      ((st :: pySliceTo rem' (n - 1)).map Question.id).Nodup) ∧
    (scan_start sid qs = (none, rem) →
      run_selection qs (some sid) n rem' full' = (pySliceTo full' n, true)) := by
  constructor
  · intro hscan hperm
    have hfound := aux_scan_start_found sid qs st (by rw [hscan])
    have hslice : pySliceTo rem' (n - 1) = rem'.take (n - 1).toNat := by
      rw [pySliceTo, if_pos (by omega)]
    refine ⟨by rw [run_selection, hscan], rfl, hfound.1, hfound.2, ?_⟩
    rw [List.map_cons, List.nodup_cons]
    constructor
    · intro hmem
      rcases List.mem_map.mp hmem with ⟨p, hp, hpid⟩
      have hp' : p ∈ rem := hperm.subset (by rw [hslice] at hp; exact List.take_subset _ _ hp)
      have hne := aux_scan_start_ne sid qs p (by rw [hscan]; exact hp')
      rw [← hfound.1] at hne
      exact hne (by rw [hpid])
    · have hrem : (rem.map Question.id).Nodup := by
        have hsub := aux_scan_start_sublist sid qs
        rw [hscan] at hsub
        exact hnd.sublist (hsub.map Question.id)
      rw [hslice, List.map_take]
      exact (((hperm.map Question.id).nodup_iff).mpr hrem).sublist (List.take_sublist _ _)
  · intro hscan
    rw [run_selection, hscan]

/-- Witness for C4 on a three-question prefix of the real bank: pinning
id 2 puts that question first with distinct ids; pinning the unresolvable
id 99 falls back to the unpinned path with the notice emitted. -/
theorem C4_pinned_selection_witness :
    (((PacketQuiz.questions.take 3).map Question.id).Nodup ∧ ((1 : Int) ≤ 2)) ∧
    (∃ st rem, scan_start 2 (PacketQuiz.questions.take 3) = (some st, rem) ∧
      run_selection (PacketQuiz.questions.take 3) (some 2) 2 rem []
          = (st :: pySliceTo rem 1, false) ∧
      (st.id : Int) = 2 ∧ st ∈ PacketQuiz.questions.take 3 ∧
      ((st :: pySliceTo rem 1).map Question.id).Nodup) ∧
    run_selection (PacketQuiz.questions.take 3) (some 99) 2 []
        (PacketQuiz.questions.take 3)
      = (pySliceTo (PacketQuiz.questions.take 3) 2, true) := by
  refine ⟨⟨by decide, by decide⟩, ?_, ?_⟩
  · obtain ⟨st, rem, hscan⟩ :
        ∃ st rem, scan_start 2 (PacketQuiz.questions.take 3) = (some st, rem) :=
      ⟨_, _, rfl⟩
    have h := (C4_pinned_selection (PacketQuiz.questions.take 3) 2 2 st rem rem []
      (by decide) (by decide)).1 hscan (List.Perm.refl _)
    exact ⟨st, rem, hscan, h.1.trans (by rw [show (2 : Int) - 1 = 1 from rfl]),
      h.2.2.1, h.2.2.2.1, by
        have := h.2.2.2.2
        rwa [show (2 : Int) - 1 = 1 from rfl] at this⟩
  · exact (C4_pinned_selection (PacketQuiz.questions.take 3) 99 2 ⟨0, [], []⟩
      (PacketQuiz.questions.take 3) [] (PacketQuiz.questions.take 3)
      (by decide) (by decide)).2 (by decide)

/-- C10 (amended): with a requested count of 0, a resolving pinned id and a
bank of at least two questions with distinct ids, the slice index
`num_questions - 1 = -1` makes Python keep all but the last shuffled
remaining question, so the session selects `bank_size - 1` questions (the
pinned one followed by all but one of the shuffled remaining ones) — one
fewer than the full bank, and in particular not zero. -/
theorem C10_pinned_zero_count (qs : List Question) (sid : Int)
    (st : Question) (rem rem' full' : List Question)
    (hnd : (qs.map Question.id).Nodup) (hq : 2 ≤ qs.length)
    (hscan : scan_start sid qs = (some st, rem)) (hperm : List.Perm rem' rem) :
    ((run_selection qs (some sid) 0 rem' full').1).length = qs.length - 1 ∧
    (run_selection qs (some sid) 0 rem' full').1 ≠ [] := by
  have hlen : rem.length + 1 = qs.length := by
    have := aux_scan_start_len sid qs st hnd (by rw [hscan])
    rwa [hscan] at this
  have hsel : (run_selection qs (some sid) 0 rem' full').1
      = st :: pySliceTo rem' (0 - 1) := by
    rw [run_selection, hscan]
  have hslice : pySliceTo rem' (0 - 1) = rem'.take (rem'.length - 1) := by
    rw [pySliceTo, if_neg (by omega)]
    congr 1
    omega
  refine ⟨?_, by rw [hsel]; exact List.cons_ne_nil st _⟩
  rw [hsel, hslice]
  simp only [List.length_cons, List.length_take]
  have := hperm.length_eq
  omega

/-- Counterexample for C10 as stated: on the real 50-question bank, a
requested count of 0 with pinned id 1 selects 49 questions, not the full
bank size of 50. -/
theorem C10_pinned_zero_count_cex :
    ((run_selection PacketQuiz.questions (some 1) 0
        (scan_start 1 PacketQuiz.questions).2 []).1).length = 49 ∧
    PacketQuiz.questions.length = 50 := by decide

/-- Witness for C10 on the real bank: the pinned-id-1, count-0 session
selects `bank_size - 1` questions and is non-empty. -/
theorem C10_pinned_zero_count_witness :
    ((PacketQuiz.questions.map Question.id).Nodup ∧
      2 ≤ PacketQuiz.questions.length) ∧
    (∃ st rem, scan_start 1 PacketQuiz.questions = (some st, rem) ∧
      ((run_selection PacketQuiz.questions (some 1) 0 rem []).1).length
          = PacketQuiz.questions.length - 1 ∧
      (run_selection PacketQuiz.questions (some 1) 0 rem []).1 ≠ []) := by
  refine ⟨⟨by decide, by decide⟩, ?_⟩
  obtain ⟨st, rem, hscan⟩ :
      ∃ st rem, scan_start 1 PacketQuiz.questions = (some st, rem) := ⟨_, _, rfl⟩
  have h := C10_pinned_zero_count PacketQuiz.questions 1 st rem rem []
    (by decide) (by decide) hscan (List.Perm.refl _)
  exact ⟨st, rem, hscan, h.1, h.2⟩

/-- C1 (amended): the end-of-session report of both quizzes is the pair
`(score, num_questions)` with percentage `score / num_questions * 100`,
where `num_questions` is the requested count; on the unpinned path this
equals the number of selected questions whenever the request does not
exceed the bank size, but when it does the reported total stays the
requested count while only `bank_size` questions are selected. -/
theorem C1_final_report (qs : List Question) (sid : Option Int) (n : Int)
    (rem' full' : List Question) (inputs : List (List Char)) :
    (PacketQuiz.run_quiz qs sid n rem' full' inputs
        = final_report (quiz_score PacketQuiz.question_correct
            (run_selection qs sid n rem' full').1 inputs) n ∧
      (PacketQuiz.run_quiz qs sid n rem' full' inputs).total = n ∧
      (PacketQuiz.run_quiz qs sid n rem' full' inputs).pct
        = ((PacketQuiz.run_quiz qs sid n rem' full' inputs).score : Rat)
            / (n : Rat) * 100) ∧
    (TCPFlagsQuiz.run_quiz n full' inputs
        = final_report (quiz_score TCPFlagsQuiz.question_correct
            (TCPFlagsQuiz.select_questions full' n) inputs) n ∧
      (TCPFlagsQuiz.run_quiz n full' inputs).total = n) ∧
    (0 ≤ n → n ≤ (full'.length : Int) → (pySliceTo full' n).length = n.toNat) ∧
    ((full'.length : Int) < n → (pySliceTo full' n).length = full'.length) := by
  refine ⟨⟨rfl, rfl, rfl⟩, ⟨rfl, rfl⟩, fun h1 h2 => ?_, fun h1 => ?_⟩
  · rw [pySliceTo, if_pos h1, List.length_take]
    omega
  · rw [pySliceTo, if_pos (by omega), List.length_take]
    omega

/-- Counterexample for C1 as stated: requesting 60 questions from the
50-question banks selects 50 questions, but the reported total is the
requested 60, not `len(selected_questions)`. -/
theorem C1_final_report_cex :
    (PacketQuiz.run_quiz PacketQuiz.questions none 60 [] PacketQuiz.questions
        (List.replicate 50 ['x'])).total = 60 ∧
    ((run_selection PacketQuiz.questions none 60 [] PacketQuiz.questions).1).length = 50 ∧
    (TCPFlagsQuiz.run_quiz 60 TCPFlagsQuiz.questions
        (List.replicate 50 ['x'])).total = 60 ∧
    (TCPFlagsQuiz.select_questions TCPFlagsQuiz.questions 60).length = 50 ∧
    (60 : Int) ≠ 50 := by
  refine ⟨rfl, by decide, rfl, by decide, by decide⟩

/-- Witness for C1: with a request of 10 on the 50-question bank the
selected count equals the request, and with 60 it stays at 50; the
reported total is the requested count in both cases. -/
theorem C1_final_report_witness :
    ((0 : Int) ≤ 10 ∧ (10 : Int) ≤ (PacketQuiz.questions.length : Int) ∧
      ((PacketQuiz.questions.length : Int) < 60)) ∧
    (pySliceTo PacketQuiz.questions 10).length = (10 : Int).toNat ∧
    (pySliceTo PacketQuiz.questions 60).length = PacketQuiz.questions.length ∧
    (PacketQuiz.run_quiz PacketQuiz.questions none 10 [] PacketQuiz.questions []).total
        = 10 ∧
    (TCPFlagsQuiz.run_quiz 10 TCPFlagsQuiz.questions []).total = 10 := by
  refine ⟨⟨by decide, by decide, by decide⟩, ?_, ?_, ?_, ?_⟩
  · exact (C1_final_report PacketQuiz.questions none 10 [] PacketQuiz.questions
      []).2.2.1 (by decide) (by decide)
  · exact (C1_final_report PacketQuiz.questions none 60 [] PacketQuiz.questions
      []).2.2.2 (by decide)
  · exact (C1_final_report PacketQuiz.questions none 10 [] PacketQuiz.questions []).1.2.1
  · exact (C1_final_report PacketQuiz.questions none 10 [] TCPFlagsQuiz.questions []).2.1.2

/-- A group that does not contain the escape character is unmarked. -/
theorem aux_marked_plain (b : List Char) (hesc : '\x1b' ∉ b) : marked b = false := by
  rw [marked, startswith, decide_eq_false_iff_not]
  intro h
  apply hesc
  apply List.take_subset HIGHLIGHT_COLOR.length b
  rw [h]
  decide

/-- A group wrapped in the colour pair is marked. -/
theorem aux_marked_hl (b : List Char) :
    marked (HIGHLIGHT_COLOR ++ b ++ RESET_COLOR) = true := by
  rw [marked, startswith, List.append_assoc, List.take_left]
  simp

/-- A rendered byte group is marked exactly when the highlight decision
fires. -/
theorem aux_marked_fmt (offset num_bytes : Option Int) (p : Nat) (b : List Char)
    (hesc : '\x1b' ∉ b) :
    marked (fmt_byte offset num_bytes p b) = hlB offset num_bytes p := by
  rw [fmt_byte]
  rcases h : hlB offset num_bytes p
  · rw [if_neg (by simp [h])]
    exact aux_marked_plain b hesc
  · rw [if_pos (by simp [h])]
    exact aux_marked_hl b

/-- Removing the highlight wrapper recovers the raw byte group. -/
theorem aux_strip_fmt (offset num_bytes : Option Int) (p : Nat) (b : List Char)
    (hesc : '\x1b' ∉ b) :
    strip_mark (fmt_byte offset num_bytes p b) = b := by
  rw [fmt_byte]
  rcases h : hlB offset num_bytes p
  · rw [if_neg (by simp [h]), strip_mark, aux_marked_plain b hesc]
    simp
  · rw [if_pos (by simp [h]), strip_mark, aux_marked_hl b]
    simp only [if_pos]
    rw [List.append_assoc, List.drop_left, List.length_append, Nat.add_sub_cancel,
      List.take_left]

/-- Stripping the markers from one line's byte groups and concatenating
them recovers that line's characters. -/
theorem aux_line_bytes_strip (offset num_bytes : Option Int) :
    ∀ i ch, '\x1b' ∉ ch →
      ((line_bytes offset num_bytes i ch).map strip_mark).flatten = ch := by
  intro i ch
  induction i, ch using line_bytes.induct offset num_bytes with
  | case1 i => simp [line_bytes]
  | case2 i c =>
    intro hesc
    rw [line_bytes]
    simp only [List.map_cons, List.map_nil, List.flatten]
    rw [aux_strip_fmt _ _ _ _ hesc]
    simp
  | case3 i c1 c2 cs ih =>
    intro hesc
    have h12 : '\x1b' ∉ [c1, c2] := by
      intro hm
      apply hesc
      rcases List.mem_cons.mp hm with h | h
      · exact h ▸ List.mem_cons_self _ _
      · rcases List.mem_cons.mp h with h2 | h2
        · exact h2 ▸ List.mem_cons_of_mem _ (List.mem_cons_self _ _)
        · simp at h2
    have htail : '\x1b' ∉ cs := fun hm =>
      hesc (List.mem_cons_of_mem _ (List.mem_cons_of_mem _ hm))
    rw [line_bytes]
    simp only [List.map_cons, List.flatten_cons]
    rw [aux_strip_fmt _ _ _ _ h12, ih htail]
    simp

/-- Stripping the markers from all rendered byte groups and concatenating
them recovers the whole hex string. -/
theorem aux_fhd_groups_strip (offset num_bytes : Option Int) :
    ∀ i hex, '\x1b' ∉ hex →
      ((fhd_groups offset num_bytes i hex).map strip_mark).flatten = hex := by
  intro i hex
  induction i, hex using fhd_groups.induct offset num_bytes with
  | case1 i => simp [fhd_groups]
  | case2 i c cs ih =>
    intro hesc
    rw [fhd_groups]
    simp only [List.map_append, List.flatten_append]
    rw [aux_line_bytes_strip offset num_bytes i _
        (fun hm => hesc (List.take_subset 32 _ hm)),
      ih (fun hm => hesc (List.drop_subset 32 _ hm))]
    exact List.take_append_drop 32 (c :: cs)

/-- The renderer emits one line per 32-character chunk. -/
theorem aux_fhd_lines_length (offset num_bytes : Option Int) :
    ∀ i hex, (fhd_lines offset num_bytes i hex).length = (hex.length + 31) / 32 := by
  intro i hex
  induction i, hex using fhd_lines.induct offset num_bytes with
  | case1 i => simp [fhd_lines]
  | case2 i c cs ih =>
    rw [fhd_lines]
    simp only [List.length_cons, ih, List.length_drop]
    omega

/-- The k-th rendered line is the offset label of its first byte followed
by two spaces and the space-joined byte groups of its chunk. -/
theorem aux_fhd_lines_get (offset num_bytes : Option Int) :
    ∀ i hex k, k < (fhd_lines offset num_bytes i hex).length →
      (fhd_lines offset num_bytes i hex).get? k
        = some (hexPad4 ((i + 32 * k) / 2) ++ [' ', ' '] ++
            List.intercalate [' '] (line_bytes offset num_bytes (i + 32 * k)
              ((hex.drop (32 * k)).take 32))) := by
  intro i hex
  induction i, hex using fhd_lines.induct offset num_bytes with
  | case1 i =>
    intro k hk
    rw [fhd_lines] at hk
    simp at hk
  | case2 i c cs ih =>
    intro k hk
    match k with
    | 0 =>
      rw [fhd_lines]
      simp
    | k + 1 =>
      rw [fhd_lines]
      rw [List.get?_cons_succ]
      rw [fhd_lines] at hk
      have hk' : k < (fhd_lines offset num_bytes (i + 32) ((c :: cs).drop 32)).length := by
        simpa using hk
      rw [ih k hk']
      rw [List.drop_drop]
      have e1 : i + 32 + 32 * k = i + 32 * (k + 1) := by ring
      have e2 : 32 + 32 * k = 32 * (k + 1) := by ring
      rw [e1, e2]

/-- Markedness of one line's byte groups: group `j` of the chunk starting
at character `i` is marked exactly when byte `i/2 + j` is in the highlight
range. -/
theorem aux_line_bytes_marked (offset num_bytes : Option Int) :
    ∀ i ch, '\x1b' ∉ ch → ch.length % 2 = 0 →
      (line_bytes offset num_bytes i ch).map marked
        = (List.range (ch.length / 2)).map
            (fun j => hlB offset num_bytes (i / 2 + j)) := by
  intro i ch
  induction i, ch using line_bytes.induct offset num_bytes with
  | case1 i => intro _ _; simp [line_bytes]
  | case2 i c => intro _ h; simp at h
  | case3 i c1 c2 cs ih =>
    intro hesc heven
    have h12 : '\x1b' ∉ [c1, c2] := by
      intro hm
      apply hesc
      rcases List.mem_cons.mp hm with h | h
      · exact h ▸ List.mem_cons_self _ _
      · rcases List.mem_cons.mp h with h2 | h2
        · exact h2 ▸ List.mem_cons_of_mem _ (List.mem_cons_self _ _)
        · simp at h2
    have htail : '\x1b' ∉ cs := fun hm =>
      hesc (List.mem_cons_of_mem _ (List.mem_cons_of_mem _ hm))
    rw [line_bytes]
    simp only [List.map_cons]
    rw [aux_marked_fmt _ _ _ _ h12, ih htail (by
      simp only [List.length_cons] at heven ⊢
      omega)]
    have hr : (c1 :: c2 :: cs).length / 2 = cs.length / 2 + 1 := by
      simp only [List.length_cons] at heven ⊢
      omega
    rw [hr, List.range_succ_eq_map, List.map_cons, List.map_map]
    have htl : (List.range (cs.length / 2)).map
          (fun j => hlB offset num_bytes ((i + 2) / 2 + j))
        = (List.range (cs.length / 2)).map
            ((fun j => hlB offset num_bytes (i / 2 + j)) ∘ Nat.succ) := by
      apply List.map_congr_left
      intro j _
      simp only [Function.comp]
      congr 1
      omega
    rw [← htl]
    simp

/-- Markedness of all rendered byte groups: group `b` (counting from the
chunk starting at character `i`) is marked exactly when byte `i/2 + b` is
in the highlight range. -/
theorem aux_fhd_groups_marked (offset num_bytes : Option Int) :
    ∀ i hex, '\x1b' ∉ hex → hex.length % 2 = 0 →
      (fhd_groups offset num_bytes i hex).map marked
        = (List.range (hex.length / 2)).map
            (fun b => hlB offset num_bytes (i / 2 + b)) := by
  intro i hex
  induction i, hex using fhd_groups.induct offset num_bytes with
  | case1 i => intro _ _; simp [fhd_groups]
  | case2 i c cs ih =>
    intro hesc heven
    have hlt : (List.take 32 (c :: cs)).length = min 32 (c :: cs).length :=
      List.length_take 32 (c :: cs)
    have hld : (List.drop 32 (c :: cs)).length = (c :: cs).length - 32 :=
      List.length_drop 32 (c :: cs)
    rw [fhd_groups, List.map_append]
    rw [aux_line_bytes_marked offset num_bytes i _
        (fun hm => hesc (List.take_subset 32 _ hm)) (by rw [hlt]; omega)]
    rw [ih (fun hm => hesc (List.drop_subset 32 _ hm)) (by rw [hld]; omega)]
    have hsplit : (c :: cs).length / 2
        = (List.take 32 (c :: cs)).length / 2 + (List.drop 32 (c :: cs)).length / 2 := by
      rw [hlt, hld]
      omega
    rw [hsplit, List.range_add, List.map_append, List.map_map]
    congr 1
    apply List.map_congr_left
    intro x hx
    simp only [Function.comp]
    rw [List.mem_range] at hx
    congr 1
    rw [hld] at hx
    rw [hlt]
    omega

/-- `toHex` emits at most `k` digits for numbers below `16 ^ k`. -/
theorem aux_toHex_length : ∀ k n, n < 16 ^ k → (toHex n).length ≤ k := by
  intro k
  induction k with
  | zero =>
    intro n hn
    have : n = 0 := by omega
    rw [this, toHex]
    simp
  | succ k ih =>
    intro n hn
    by_cases h0 : n = 0
    · rw [h0, toHex]
      simp
    · rw [toHex, dif_neg h0]
      simp only [List.length_append, List.length_cons, List.length_nil]
      have hdiv : n / 16 < 16 ^ k := by
        rw [Nat.div_lt_iff_lt_mul (by omega)]
        calc n < 16 ^ (k + 1) := hn
        _ = 16 ^ k * 16 := by ring
      have := ih (n / 16) hdiv
      omega

/-- Offsets below `0x10000` are rendered as exactly four hex digits. -/
theorem aux_hexPad4_length (n : Nat) (h : n < 65536) : (hexPad4 n).length = 4 := by
  rw [hexPad4]
  by_cases h0 : n = 0
  · rw [if_pos h0]
    simp
  · rw [if_neg h0]
    simp only [List.length_append, List.length_replicate]
    have : (toHex n).length ≤ 4 := aux_toHex_length 4 n (by norm_num; omega)
    omega

/-- The highlight decision never fires when either parameter is absent. -/
theorem aux_hlB_none (offset num_bytes : Option Int) (p : Nat)
    (h : offset = none ∨ num_bytes = none) : hlB offset num_bytes p = false := by
  rcases h with h | h
  · subst h
    cases num_bytes <;> rfl
  · subst h
    cases offset <;> rfl

/-- C5: for every even-length hex string (no escape characters), the
renderer emits `ceil(bytes/16)` lines (zero for empty input); line `k`
starts with the zero-padded lowercase label of byte offset `16 k` (exactly
four hex digits for offsets below `0x10000`), followed by the chunk's byte
groups joined by single spaces; and stripping the highlight markers from
all rendered two-character byte groups and concatenating them reconstructs
the original hex string exactly, including a final partial line. -/
theorem C5_hex_dump_render (hex : List Char) (offset num_bytes : Option Int)
    (heven : hex.length % 2 = 0) (hesc : '\x1b' ∉ hex) :
    format_hex_dump hex offset num_bytes
        = List.intercalate ['\n'] (fhd_lines offset num_bytes 0 hex) ∧
    (fhd_lines offset num_bytes 0 hex).length = (hex.length / 2 + 15) / 16 ∧
    (∀ k, k < (fhd_lines offset num_bytes 0 hex).length →
      (fhd_lines offset num_bytes 0 hex).get? k
        = some (hexPad4 (16 * k) ++ [' ', ' '] ++
            List.intercalate [' '] (line_bytes offset num_bytes (32 * k)
              ((hex.drop (32 * k)).take 32)))) ∧
    (∀ k, 16 * k < 65536 → (hexPad4 (16 * k)).length = 4) ∧
    ((fhd_groups offset num_bytes 0 hex).map strip_mark).flatten = hex := by
  refine ⟨rfl, ?_, ?_, fun k hk => aux_hexPad4_length _ hk,
    aux_fhd_groups_strip offset num_bytes 0 hex hesc⟩
  · rw [aux_fhd_lines_length]
    omega
  · intro k hk
    have h := aux_fhd_lines_get offset num_bytes 0 hex k hk
    have e1 : 0 + 32 * k = 32 * k := by omega
    have e2 : 32 * k / 2 = 16 * k := by omega
    rw [e1, e2] at h
    exact h

/-- Witness for C5 on an 18-byte hex string (two lines, the second
partial): the line count and the reconstruction property hold. -/
theorem C5_hex_dump_render_witness :
    ("00112233445566778899aabbccddeeff0011".toList.length % 2 = 0 ∧
      '\x1b' ∉ "00112233445566778899aabbccddeeff0011".toList) ∧
    (fhd_lines (some 1) (some 2) 0 "00112233445566778899aabbccddeeff0011".toList).length
        = ("00112233445566778899aabbccddeeff0011".toList.length / 2 + 15) / 16 ∧
    ((fhd_groups (some 1) (some 2) 0
        "00112233445566778899aabbccddeeff0011".toList).map strip_mark).flatten
      = "00112233445566778899aabbccddeeff0011".toList := by
  refine ⟨⟨by decide, by decide⟩, ?_, ?_⟩
  · exact (C5_hex_dump_render _ (some 1) (some 2) (by decide) (by decide)).2.1
  · exact (C5_hex_dump_render _ (some 1) (some 2) (by decide) (by decide)).2.2.2.2

/-- C6: with both parameters present, the rendered byte group at absolute
byte index `b` is marked exactly when `offset <= b < offset + length`, and
a range extending past the end is clipped silently (every byte is still
rendered, so the group count is unchanged); a zero or negative length marks
nothing; an absent parameter marks nothing. -/
theorem C6_hex_dump_highlight (hex : List Char)
    (heven : hex.length % 2 = 0) (hesc : '\x1b' ∉ hex) :
    (∀ o n : Int,
      (fhd_groups (some o) (some n) 0 hex).map marked
        = (List.range (hex.length / 2)).map
            (fun b : Nat => decide (o ≤ (b : Int) ∧ (b : Int) < o + n))) ∧
    (∀ o n : Int, n ≤ 0 →
      ∀ g ∈ fhd_groups (some o) (some n) 0 hex, marked g = false) ∧
    (∀ offset num_bytes : Option Int, (offset = none ∨ num_bytes = none) →
      ∀ g ∈ fhd_groups offset num_bytes 0 hex, marked g = false) ∧
    (∀ offset num_bytes : Option Int,
      (fhd_groups offset num_bytes 0 hex).length = hex.length / 2) := by
  have hmain : ∀ offset num_bytes : Option Int,
      (fhd_groups offset num_bytes 0 hex).map marked
        = (List.range (hex.length / 2)).map (fun b => hlB offset num_bytes b) := by
    intro offset num_bytes
    rw [aux_fhd_groups_marked offset num_bytes 0 hex hesc heven]
    apply List.map_congr_left
    intro b _
    congr 1
    omega
  refine ⟨?_, ?_, ?_, ?_⟩
  · intro o n
    rw [hmain (some o) (some n)]
    apply List.map_congr_left
    intro b _
    rfl
  · intro o n hn g hg
    have hmem : marked g ∈ (fhd_groups (some o) (some n) 0 hex).map marked :=
      List.mem_map_of_mem marked hg
    rw [hmain] at hmem
    rcases List.mem_map.mp hmem with ⟨b, _, hb⟩
    rw [← hb, hlB, decide_eq_false_iff_not]
    intro hc
    omega
  · intro offset num_bytes hno g hg
    have hmem : marked g ∈ (fhd_groups offset num_bytes 0 hex).map marked :=
      List.mem_map_of_mem marked hg
    rw [hmain] at hmem
    rcases List.mem_map.mp hmem with ⟨b, _, hb⟩
    rw [← hb]
    exact aux_hlB_none offset num_bytes b hno
  · intro offset num_bytes
    have := congrArg List.length (hmain offset num_bytes)
    simpa using this

/-- Witness for C6 on a 4-byte hex string: the range `[1, 3)` marks exactly
bytes 1 and 2, a negative length marks nothing, and an absent offset still
renders all four byte groups. -/
theorem C6_hex_dump_highlight_witness :
    ("deadbeef".toList.length % 2 = 0 ∧ '\x1b' ∉ "deadbeef".toList) ∧
    (fhd_groups (some 1) (some 2) 0 "deadbeef".toList).map marked
        = (List.range ("deadbeef".toList.length / 2)).map
            (fun b : Nat => decide ((1 : Int) ≤ (b : Int) ∧ (b : Int) < 1 + 2)) ∧
    (∀ g ∈ fhd_groups (some 1) (some (-3)) 0 "deadbeef".toList, marked g = false) ∧
    (fhd_groups none (some 2) 0 "deadbeef".toList).length
        = "deadbeef".toList.length / 2 := by
  refine ⟨⟨by decide, by decide⟩, ?_, ?_, ?_⟩
  · exact (C6_hex_dump_highlight "deadbeef".toList (by decide) (by decide)).1 1 2
  · exact (C6_hex_dump_highlight "deadbeef".toList (by decide) (by decide)).2.1 1 (-3)
      (by norm_num)
  · exact (C6_hex_dump_highlight "deadbeef".toList (by decide) (by decide)).2.2.2
      none (some 2)
